import Mathlib

/-!
Verification of the gorm-plus data-access layer (`gplus/base_dao.go`).

The Go source is shallowly embedded: the `Query` descriptor is a record of
its string builders and argument lists, the gorm database handle is reduced
to the data the dao layer actually inspects (error flag, affected rows),
and the external relational store is a parameter (a function from the built
clause chain to a result), since the spec treats it as an opaque
collaborator.  Go in-place mutation of the descriptor (pointer receiver) is
modelled by returning the updated descriptor value.
-/

namespace GPlus

/-- Result handle of a gorm call, reduced to the fields `base_dao.go`
reads: the `Error` field and the `RowsAffected` counter. -/
structure GormDB where
  error : Option String
  rowsAffected : Int
deriving DecidableEq, Repr

/-- The query descriptor (`Query[T]` of the repository): the top-level
condition builder with its positional argument list, the AND/OR bracket
sub-builders with their own argument lists, and the clause builders used
by `buildCondition`.  Builders (Go `strings.Builder`) are plain strings;
argument values (`[]any`) are a type parameter `α`. -/
structure Query (α : Type) where
  QueryBuilder : String
  QueryArgs : List α
  AndBracketBuilder : String
  AndBracketArgs : List α
  OrBracketBuilder : String
  OrBracketArgs : List α
  DistinctColumns : List String
  SelectColumns : List String
  OrderBuilder : String
  GroupBuilder : String
  HavingBuilder : String
  HavingArgs : List α
deriving DecidableEq, Repr

/-- `Page[T]` of the source: current page number, page size, total row
count and the fetched records. -/
structure Page (ε : Type) where
  Current : Int
  Size : Int
  Total : Int
  Records : List ε
deriving DecidableEq, Repr

/-- The clause chain a facade operation hands to the store: exactly the
clauses `buildCondition` attaches to the `gorm.DB` value, each `none` when
the corresponding builder was empty and therefore omitted. -/
structure DBChain (α : Type) where
  whereClause : Option (String × List α)
  distinct : Option (List String)
  selectCols : Option (List String)
  order : Option String
  group : Option String
  having : Option (String × List α)
deriving DecidableEq, Repr

/-- `buildCondition` of `base_dao.go`.  When the top-level builder is
non-empty it first merges the AND bracket (arguments appended, then the
bracket string written into the top-level builder), then the OR bracket,
and attaches the merged string and argument list as the WHERE clause;
otherwise no WHERE clause is attached at all.  The bracket builders are
not cleared by the merge.  The source mutates the descriptor through its
pointer; here the updated descriptor is returned alongside the chain.
The source's nil-pointer guard (`if q != nil`) has no counterpart: a
`Query α` value is always present. -/
def buildCondition {α : Type} (q : Query α) : Query α × DBChain α :=
  let qAnd :=
    if 0 < q.AndBracketBuilder.length then
      { q with QueryArgs := q.QueryArgs ++ q.AndBracketArgs,
               QueryBuilder := q.QueryBuilder ++ q.AndBracketBuilder }
    else q
  let qOr :=
    if 0 < qAnd.OrBracketBuilder.length then
      { qAnd with QueryArgs := qAnd.QueryArgs ++ qAnd.OrBracketArgs,
                  QueryBuilder := qAnd.QueryBuilder ++ qAnd.OrBracketBuilder }
    else qAnd
  let q2 := if 0 < q.QueryBuilder.length then qOr else q
  let whereClause :=
    if 0 < q.QueryBuilder.length then some (q2.QueryBuilder, q2.QueryArgs) else none
  (q2,
    { whereClause := whereClause
      distinct := if 0 < q.DistinctColumns.length then some q.DistinctColumns else none
      selectCols := if 0 < q.SelectColumns.length then some q.SelectColumns else none
      order := if 0 < q.OrderBuilder.length then some q.OrderBuilder else none
      group := if 0 < q.GroupBuilder.length then some q.GroupBuilder else none
      having := if 0 < q.HavingBuilder.length then some (q.HavingBuilder, q.HavingArgs) else none })

/-- Two's-complement wraparound of a signed 64-bit Go `int`: the unique
representative of `n` modulo `2 ^ 64 = 18446744073709551616` lying in
`[-(2 ^ 63), 2 ^ 63) = [-9223372036854775808, 9223372036854775808)`.
Go guarantees signed integer arithmetic wraps this way on overflow. -/
def wrapInt (n : Int) : Int :=
  (n + 9223372036854775808) % 18446744073709551616 - 9223372036854775808

/-- `paginate` of the source: it copies `p.Current` and `p.Size` into
locals, normalizes the locals (page at most 0 becomes 1, size at most 0
becomes 10) and produces the offset `(page-1)*pageSize` and limit
`pageSize` applied to the query.  The subtraction and the multiplication
are Go `int` operations, so each intermediate result wraps (`wrapInt`).
The `Page` itself is only read, so it is returned unchanged next to the
computed pair. -/
def paginate {ε : Type} (p : Page ε) : Page ε × (Int × Int) :=
  let page := p.Current
  let pageSize := p.Size
  let page := if page ≤ 0 then 1 else page
  let pageSize := if pageSize ≤ 0 then 10 else pageSize
  (p, (wrapInt (wrapInt (page - 1) * pageSize), pageSize))

/-- Behavior of the external relational store for the operations a
paginated read performs: `countRun` answers a count query over a clause
chain with a row count and an optional error; `findRun` answers a data
query over a clause chain with the given offset and limit, returning the
records and an optional error.  The spec treats the store as an opaque
collaborator, so it is a parameter of the facade. -/
structure Store (α ε : Type) where
  countRun : DBChain α → Int × Option String
  findRun : DBChain α → Int × Int → List ε × Option String

/-- Outcome of `SelectCount`: the count and error reported by the store,
together with the descriptor as mutated by `buildCondition` and the
clause chain the count query ran on. -/
structure CountOutcome (α : Type) where
  count : Int
  err : Option String
  q : Query α
  chain : DBChain α
deriving Repr

/-- `SelectCount` of the source: builds the condition (mutating the
descriptor) and runs the count query on the resulting chain. -/
def SelectCount {α : Type} (countRun : DBChain α → Int × Option String)
    (q : Query α) : CountOutcome α :=
  let bc := buildCondition q
  let r := countRun bc.2
  ⟨r.1, r.2, bc.1, bc.2⟩

/-- Everything observable about one `SelectPage` / `SelectPageModel`
execution: the returned page, the error of the returned handle, whether
the data query was issued, the clause chain used by the count query, the
clause chain and the offset and limit used by the data query (absent when
it never ran), and the descriptor as left behind. -/
structure PageOutcome (α ε : Type) where
  page : Page ε
  err : Option String
  dataExecuted : Bool
  countChain : DBChain α
  dataChain : Option (DBChain α)
  offsetLimit : Option (Int × Int)
  q : Query α
deriving Repr

/-- `SelectPage` of the source: runs `SelectCount`; on a count error it
returns the page untouched with that error, before any data query.
Otherwise it stores the total into the page, calls `buildCondition` again
on the (already mutated) descriptor, applies `paginate` and runs the data
query, storing the records into the page. -/
def SelectPage {α ε : Type} (store : Store α ε) (page : Page ε)
    (q : Query α) : PageOutcome α ε :=
  let c := SelectCount store.countRun q
  match c.err with
  | some e => ⟨page, some e, false, c.chain, none, none, c.q⟩
  | none =>
    let page1 := { page with Total := c.count }
    let bc2 := buildCondition c.q
    let ol := (paginate page1).2
    let fr := store.findRun bc2.2 ol
    ⟨{ page1 with Records := fr.1 }, fr.2, true, c.chain, some bc2.2, some ol, bc2.1⟩

/-- `SelectPageModel` of the source: identical control flow to
`SelectPage`, but the data query scans rows into a projection shape `ρ`
instead of the entity shape. -/
def SelectPageModel {α ρ : Type} (store : Store α ρ) (page : Page ρ)
    (q : Query α) : PageOutcome α ρ :=
  let c := SelectCount store.countRun q
  match c.err with
  | some e => ⟨page, some e, false, c.chain, none, none, c.q⟩
  | none =>
    let page1 := { page with Total := c.count }
    let bc2 := buildCondition c.q
    let ol := (paginate page1).2
    let fr := store.findRun bc2.2 ol
    ⟨{ page1 with Records := fr.1 }, fr.2, true, c.chain, some bc2.2, some ol, bc2.1⟩

/-- Modelled from the spec: the external store single-row fetch by primary
key (`gormDb.Take(&entity, id)` runs against the gorm driver, which is not
part of this repository).  The store holds a table of keyed rows; a
matching row comes back with one affected row and no error, and zero
matching rows come back with zero affected rows and no error, the spec's
"Not-found: zero rows matched a single-row fetch — represented as an
absent result, not an error". -/
def gormTakeById {κ ε : Type} [DecidableEq κ] (rows : List (κ × ε))
    (id : κ) : Option ε × GormDB :=
  match rows.find? (fun r => decide (r.1 = id)) with
  | some r => (some r.2, ⟨none, 1⟩)
  | none => (none, ⟨none, 0⟩)

/-- `SelectById` of the source: fetches the row by id with `Take`; when
the handle reports zero affected rows the entity pointer is dropped and
`nil` is returned next to the handle. -/
def SelectById {κ ε : Type} [DecidableEq κ] (rows : List (κ × ε))
    (id : κ) : Option ε × GormDB :=
  let tr := gormTakeById rows id
  if tr.2.rowsAffected = 0 then (none, tr.2) else (tr.1, tr.2)

/-- `SelectOne` of the source: builds the condition, runs the single-row
fetch (`Take`) on the resulting chain via the store parameter `takeRun`,
and drops the entity when the handle reports zero affected rows. -/
def SelectOne {α ε : Type} (takeRun : DBChain α → Option ε × GormDB)
    (q : Query α) : Option ε × GormDB :=
  let bc := buildCondition q
  let tr := takeRun bc.2
  if tr.2.rowsAffected = 0 then (none, tr.2) else (tr.1, tr.2)

/-- The package-level default batch size constant. -/
def defaultBatchSize : Int := 1000

/-- `InsertBatch` of the source, instrumented with the number of store
calls it performs: an empty entity list returns the untouched global
handle without calling the store; otherwise `CreateInBatches` is invoked
once with the default batch size (`createInBatches` is the external store
behavior). -/
def InsertBatch {ε : Type} (gormDb : GormDB)
    (createInBatches : List ε → Int → GormDB)
    (entities : List ε) : GormDB × Nat :=
  if entities.length = 0 then (gormDb, 0)
  else (createInBatches entities defaultBatchSize, 1)

/-- `InsertBatchSize` of the source: like `InsertBatch` but with an
explicit batch size, which falls back to the default when at most 0.  The
empty-input check comes first. -/
def InsertBatchSize {ε : Type} (gormDb : GormDB)
    (createInBatches : List ε → Int → GormDB)
    (entities : List ε) (batchSize : Int) : GormDB × Nat :=
  if entities.length = 0 then (gormDb, 0)
  else
    let bs := if batchSize ≤ 0 then defaultBatchSize else batchSize
    (createInBatches entities bs, 1)

/-- Modelled from the spec: the primary-key column name constant
(`constants.PK` lives outside this repository snapshot); by-id operations
fall back to "a well-known primary-key column name constant". -/
def constantsPK : String := "id"

/-- `getPKColumn` of the source: the first explicitly supplied column
name, or the package constant when none was supplied. -/
def getPKColumn (primaryKeyColumn : List String) : String :=
  match primaryKeyColumn with
  | c :: _ => c
  | [] => constantsPK

/-- `DeleteByIds` of the source, instrumented with the number of store
calls: an empty id list returns the untouched global handle without
calling the store; otherwise a fresh descriptor with an IN predicate on
the primary-key column is built and `Delete` issues exactly one store
call, abstracted as `deleteRun` applied to that column and the ids (the
fluent `NewQuery`/`In` constructors live outside this snapshot). -/
def DeleteByIds {κ : Type} (gormDb : GormDB)
    (deleteRun : String → List κ → GormDB)
    (primaryKeyColumn : List String) (ids : List κ) : GormDB × Nat :=
  if ids.length = 0 then (gormDb, 0)
  else (deleteRun (getPKColumn primaryKeyColumn) ids, 1)

/-- Number of positional placeholders in a condition fragment. -/
def countPlaceholders (s : String) : Nat :=
  s.data.countP (fun c => c == '?')

/-- Concrete store whose count query fails, for exercising the count
short-circuit of `SelectPage`. -/
def c3Store : Store String Nat :=
  ⟨fun _ => (0, some "boom"), fun _ _ => ([], none)⟩

/-- Concrete projection store whose count query fails, for exercising the
count short-circuit of `SelectPageModel`. -/
def c3StoreM : Store String Bool :=
  ⟨fun _ => (0, some "boom"), fun _ _ => ([], none)⟩

/-- Concrete page with a recognizable pre-call Total. -/
def c3Page : Page Nat := ⟨1, 10, 42, []⟩

/-- Concrete projection page with a recognizable pre-call Total. -/
def c3PageM : Page Bool := ⟨1, 10, 43, []⟩

/-- Concrete empty descriptor for the count short-circuit example. -/
def c3Q : Query String := ⟨"", [], "", [], "", [], [], [], "", "", "", []⟩

/-- Concrete store answering the count query with 23 rows and the data
query with three records, for the pagination example. -/
def c7Store1 : Store String Nat :=
  ⟨fun _ => (23, none), fun _ _ => ([7, 8, 9], none)⟩

/-- Concrete store with the same count behavior as `c7Store1` but a data
query returning no records. -/
def c7Store2 : Store String Nat :=
  ⟨fun _ => (23, none), fun _ _ => ([], none)⟩

/-- Concrete page asking for page 3 of size 10. -/
def c7Page : Page Nat := ⟨3, 10, 0, []⟩

/-- Concrete empty descriptor for the pagination example. -/
def c7Q : Query String := ⟨"", [], "", [], "", [], [], [], "", "", "", []⟩

theorem countPlaceholders_append (a b : String) :
    countPlaceholders (a ++ b) = countPlaceholders a + countPlaceholders b := by
  rcases a with ⟨a⟩
  rcases b with ⟨b⟩
  simp [countPlaceholders, String.instAppend, String.append, List.countP_append]

/-- C1: the claim fails on the code.  On a descriptor with a non-empty
top-level builder and a non-empty AND bracket, `SelectPage` runs
`buildCondition` twice on the same descriptor (once inside `SelectCount`,
once for the data query); the second run re-appends the bracket fragment
and its argument, so the data query condition duplicates the bracket and
differs from the count query condition. -/
theorem selectPage_duplicates_bracket_in_data_query :
    (let out := SelectPage
        (⟨fun _ => (0, none), fun _ _ => ([], none)⟩ : Store String Nat)
        ⟨1, 10, 0, []⟩
        ⟨"a = ?", ["1"], " AND (b = ?)", ["2"], "", [], [], [], "", "", "", []⟩;
      out.countChain.whereClause = some ("a = ? AND (b = ?)", ["1", "2"])
      ∧ out.dataChain = some
          ⟨some ("a = ? AND (b = ?) AND (b = ?)", ["1", "2", "2"]),
            none, none, none, none, none⟩
      ∧ some out.countChain ≠ out.dataChain) := by
  decide

/-- C2: one `buildCondition` merge on a descriptor whose top-level, AND
bracket and OR bracket builders each have as many placeholders as queued
arguments produces a WHERE condition whose placeholder count equals its
argument list length, and when all three parts are non-empty the fragments
and arguments are concatenated in the fixed order: top level, then AND
bracket, then OR bracket. -/
theorem buildCondition_parity_and_argument_order {α : Type} (q : Query α)
    (h1 : countPlaceholders q.QueryBuilder = q.QueryArgs.length)
    (h2 : countPlaceholders q.AndBracketBuilder = q.AndBracketArgs.length)
    (h3 : countPlaceholders q.OrBracketBuilder = q.OrBracketArgs.length) :
    (∀ s args, (buildCondition q).2.whereClause = some (s, args) →
        countPlaceholders s = args.length)
    ∧ (0 < q.QueryBuilder.length → 0 < q.AndBracketBuilder.length →
        0 < q.OrBracketBuilder.length →
        (buildCondition q).2.whereClause =
          some (q.QueryBuilder ++ q.AndBracketBuilder ++ q.OrBracketBuilder,
                q.QueryArgs ++ q.AndBracketArgs ++ q.OrBracketArgs)) := by
  constructor
  · intro s args h
    by_cases hT : 0 < q.QueryBuilder.length
    · by_cases hA : 0 < q.AndBracketBuilder.length <;>
        by_cases hO : 0 < q.OrBracketBuilder.length <;>
        · simp [buildCondition, hT, hA, hO] at h
          obtain ⟨hs, ha⟩ := h
          subst hs
          subst ha
          simp [countPlaceholders_append, h1, h2, h3, Nat.add_assoc]
    · simp [buildCondition, hT] at h
  · intro hT hA hO
    simp [buildCondition, hT, hA, hO]

/-- C2 witness: a concrete descriptor with one placeholder and one
argument in each of the three parts. -/
theorem buildCondition_parity_and_argument_order_witness :
    (countPlaceholders "a = ?" = (["x"] : List String).length
      ∧ countPlaceholders " AND (c = ?)" = (["y"] : List String).length
      ∧ countPlaceholders " OR (d = ?)" = (["z"] : List String).length)
    ∧ (buildCondition
        (⟨"a = ?", ["x"], " AND (c = ?)", ["y"], " OR (d = ?)", ["z"],
          [], [], "", "", "", []⟩ : Query String)).2.whereClause =
        some ("a = ?" ++ " AND (c = ?)" ++ " OR (d = ?)",
              (["x"] : List String) ++ ["y"] ++ ["z"]) :=
  ⟨⟨by decide, by decide, by decide⟩,
    (buildCondition_parity_and_argument_order
      (⟨"a = ?", ["x"], " AND (c = ?)", ["y"], " OR (d = ?)", ["z"],
        [], [], "", "", "", []⟩ : Query String)
      (by decide) (by decide) (by decide)).2
      (by decide) (by decide) (by decide)⟩

/-- C3: when the count sub-query of `SelectPage` or `SelectPageModel`
reports an error, the data query is never executed, the returned error is
exactly the count error, and the page (in particular its Total field) is
returned at its pre-call value. -/
theorem selectPage_count_error_short_circuits {α ε ρ : Type}
    (store : Store α ε) (storeM : Store α ρ)
    (page : Page ε) (pageM : Page ρ) (q : Query α) (e eM : String)
    (h : (SelectCount store.countRun q).err = some e)
    (hM : (SelectCount storeM.countRun q).err = some eM) :
    ((SelectPage store page q).dataExecuted = false
      ∧ (SelectPage store page q).err = some e
      ∧ (SelectPage store page q).page = page
      ∧ (SelectPage store page q).page.Total = page.Total)
    ∧ ((SelectPageModel storeM pageM q).dataExecuted = false
      ∧ (SelectPageModel storeM pageM q).err = some eM
      ∧ (SelectPageModel storeM pageM q).page = pageM
      ∧ (SelectPageModel storeM pageM q).page.Total = pageM.Total) := by
  constructor
  · simp [SelectPage, h]
  · simp [SelectPageModel, hM]

/-- C3 witness: stores whose count query fails with a concrete error. -/
theorem selectPage_count_error_short_circuits_witness :
    ((SelectCount c3Store.countRun c3Q).err = some "boom"
      ∧ (SelectCount c3StoreM.countRun c3Q).err = some "boom")
    ∧ (((SelectPage c3Store c3Page c3Q).dataExecuted = false
        ∧ (SelectPage c3Store c3Page c3Q).err = some "boom"
        ∧ (SelectPage c3Store c3Page c3Q).page = c3Page
        ∧ (SelectPage c3Store c3Page c3Q).page.Total = c3Page.Total)
      ∧ ((SelectPageModel c3StoreM c3PageM c3Q).dataExecuted = false
        ∧ (SelectPageModel c3StoreM c3PageM c3Q).err = some "boom"
        ∧ (SelectPageModel c3StoreM c3PageM c3Q).page = c3PageM
        ∧ (SelectPageModel c3StoreM c3PageM c3Q).page.Total = c3PageM.Total)) :=
  ⟨⟨rfl, rfl⟩,
    selectPage_count_error_short_circuits c3Store c3StoreM c3Page c3PageM c3Q
      "boom" "boom" rfl rfl⟩

/-- A value already inside the signed 64-bit range is its own
wraparound. -/
theorem wrapInt_eq_of_fits (n : Int) (h1 : -9223372036854775808 ≤ n)
    (h2 : n < 9223372036854775808) : wrapInt n = n := by
  unfold wrapInt
  rw [Int.emod_eq_of_lt (by omega) (by omega)]
  omega

/-- C4 counterexample: the claim's formula offset = (page-1) × size fails
on the code at page 3 and size 2^62 = 4611686018427387904.  The
mathematical product is 2^63, which overflows a signed 64-bit Go int, so
the code wraps the offset to -2^63 instead. -/
theorem paginate_overflow_counterexample :
    (paginate (⟨3, 4611686018427387904, 0, []⟩ : Page Unit)).2.1 ≠
      (3 - 1) * 4611686018427387904
    ∧ (paginate (⟨3, 4611686018427387904, 0, []⟩ : Page Unit)).2.1 =
      -9223372036854775808 := by
  constructor
  · decide
  · decide

/-- C4 (amended): for every 64-bit representable page number, `paginate`
normalizes a page of at most 0 to 1 and a size of at most 0 to 10, then
produces limit `size` and offset `(page - 1) * size` over the normalized
values whenever that product fits in a signed 64-bit int (at overflowing
inputs the offset is its two's-complement wraparound instead); in
particular calc(0,5) = (0,5), calc(2,10) = (10,10) and
calc(-3,0) = (0,10). -/
theorem paginate_normalizes {ε : Type} (p s t : Int) (r : List ε)
    (_hp1 : -9223372036854775808 ≤ p) (hp2 : p < 9223372036854775808)
    (hm1 : -9223372036854775808 ≤
      ((if p ≤ 0 then 1 else p) - 1) * (if s ≤ 0 then 10 else s))
    (hm2 : ((if p ≤ 0 then 1 else p) - 1) * (if s ≤ 0 then 10 else s) <
      9223372036854775808) :
    (paginate (⟨p, s, t, r⟩ : Page ε)).2 =
      (((if p ≤ 0 then 1 else p) - 1) * (if s ≤ 0 then 10 else s),
        if s ≤ 0 then 10 else s)
    ∧ (paginate (⟨0, 5, 0, []⟩ : Page Unit)).2 = (0, 5)
    ∧ (paginate (⟨2, 10, 0, []⟩ : Page Unit)).2 = (10, 10)
    ∧ (paginate (⟨-3, 0, 0, []⟩ : Page Unit)).2 = (0, 10) := by
  refine ⟨?_, by decide, by decide, by decide⟩
  have hsub : wrapInt ((if p ≤ 0 then 1 else p) - 1) =
      (if p ≤ 0 then 1 else p) - 1 := by
    apply wrapInt_eq_of_fits <;> split_ifs <;> omega
  have hmul : wrapInt (((if p ≤ 0 then 1 else p) - 1) * (if s ≤ 0 then 10 else s)) =
      ((if p ≤ 0 then 1 else p) - 1) * (if s ≤ 0 then 10 else s) :=
    wrapInt_eq_of_fits _ hm1 hm2
  show (wrapInt (wrapInt ((if p ≤ 0 then 1 else p) - 1) * (if s ≤ 0 then 10 else s)),
      (if s ≤ 0 then 10 else s)) =
    (((if p ≤ 0 then 1 else p) - 1) * (if s ≤ 0 then 10 else s),
      if s ≤ 0 then 10 else s)
  rw [hsub, hmul]

/-- C4 witness: page 2 and size 10 are 64-bit representable, the
normalized product 10 fits, and the calculator yields offset 10 and
limit 10. -/
theorem paginate_normalizes_witness :
    ((-9223372036854775808 ≤ (2 : Int) ∧ (2 : Int) < 9223372036854775808)
      ∧ (-9223372036854775808 ≤
          ((if (2 : Int) ≤ 0 then 1 else 2) - 1) * (if (10 : Int) ≤ 0 then 10 else 10)
        ∧ ((if (2 : Int) ≤ 0 then 1 else 2) - 1) * (if (10 : Int) ≤ 0 then 10 else 10) <
          9223372036854775808))
    ∧ ((paginate (⟨2, 10, 0, []⟩ : Page Unit)).2 =
        (((if (2 : Int) ≤ 0 then 1 else 2) - 1) * (if (10 : Int) ≤ 0 then 10 else 10),
          if (10 : Int) ≤ 0 then 10 else 10)
      ∧ (paginate (⟨0, 5, 0, []⟩ : Page Unit)).2 = (0, 5)
      ∧ (paginate (⟨2, 10, 0, []⟩ : Page Unit)).2 = (10, 10)
      ∧ (paginate (⟨-3, 0, 0, []⟩ : Page Unit)).2 = (0, 10)) :=
  ⟨⟨⟨by decide, by decide⟩, ⟨by decide, by decide⟩⟩,
    paginate_normalizes 2 10 0 [] (by decide) (by decide) (by decide) (by decide)⟩

/-- C5: a descriptor with an empty top-level condition builder finalizes
to no WHERE clause, its condition string stays empty and its argument
list stays empty; this is an ordinary outcome, not an error. -/
theorem buildCondition_empty_builder {α : Type} (q : Query α)
    (h : q.QueryBuilder = "") (h2 : q.QueryArgs = []) :
    (buildCondition q).2.whereClause = none
    ∧ (buildCondition q).1.QueryBuilder = ""
    ∧ (buildCondition q).1.QueryArgs = [] := by
  have hT : ¬ 0 < q.QueryBuilder.length := by simp [h]
  simp [buildCondition, hT, h, h2]

/-- C5 witness: the all-empty descriptor. -/
theorem buildCondition_empty_builder_witness :
    ((⟨"", [], "", [], "", [], [], [], "", "", "", []⟩ : Query String).QueryBuilder = ""
      ∧ (⟨"", [], "", [], "", [], [], [], "", "", "", []⟩ : Query String).QueryArgs = [])
    ∧ ((buildCondition (⟨"", [], "", [], "", [], [], [], "", "", "", []⟩ : Query String)).2.whereClause = none
      ∧ (buildCondition (⟨"", [], "", [], "", [], [], [], "", "", "", []⟩ : Query String)).1.QueryBuilder = ""
      ∧ (buildCondition (⟨"", [], "", [], "", [], [], [], "", "", "", []⟩ : Query String)).1.QueryArgs = []) :=
  ⟨⟨rfl, rfl⟩,
    buildCondition_empty_builder
      (⟨"", [], "", [], "", [], [], [], "", "", "", []⟩ : Query String) rfl rfl⟩

/-- C6: `SelectById` on an id matching no row, and `SelectOne` when the
single-row fetch affects no row and the store reports no error, both
return an absent record next to a handle with zero affected rows and no
error: the zero-row outcome is not turned into an error by the facade. -/
theorem selectById_selectOne_not_found {κ ε α ρ : Type} [DecidableEq κ]
    (rows : List (κ × ε)) (id : κ)
    (h : rows.find? (fun r => decide (r.1 = id)) = none)
    (takeRun : DBChain α → Option ρ × GormDB) (q : Query α)
    (h1 : (takeRun (buildCondition q).2).2.rowsAffected = 0)
    (h2 : (takeRun (buildCondition q).2).2.error = none) :
    (SelectById rows id = (none, ⟨none, 0⟩))
    ∧ (SelectOne takeRun q).1 = none
    ∧ (SelectOne takeRun q).2.rowsAffected = 0
    ∧ (SelectOne takeRun q).2.error = none := by
  refine ⟨?_, ?_, ?_, ?_⟩
  · simp [SelectById, gormTakeById, h]
  · simp [SelectOne, h1]
  · simp [SelectOne, h1]
  · simp [SelectOne, h1, h2]

/-- C6 witness: a one-row table missing the requested id and a store
whose conditional fetch matches nothing. -/
theorem selectById_selectOne_not_found_witness :
    (([((2 : Int), "a")].find? (fun r => decide (r.1 = (1 : Int))) = none
      ∧ (((fun _ => (none, ⟨none, 0⟩)) : DBChain String → Option String × GormDB)
          (buildCondition (⟨"", [], "", [], "", [], [], [], "", "", "", []⟩ : Query String)).2).2.rowsAffected = 0)
    ∧ ((SelectById [((2 : Int), "a")] (1 : Int) = (none, ⟨none, 0⟩))
      ∧ (SelectOne ((fun _ => (none, ⟨none, 0⟩)) : DBChain String → Option String × GormDB)
          (⟨"", [], "", [], "", [], [], [], "", "", "", []⟩ : Query String)).1 = none
      ∧ (SelectOne ((fun _ => (none, ⟨none, 0⟩)) : DBChain String → Option String × GormDB)
          (⟨"", [], "", [], "", [], [], [], "", "", "", []⟩ : Query String)).2.rowsAffected = 0
      ∧ (SelectOne ((fun _ => (none, ⟨none, 0⟩)) : DBChain String → Option String × GormDB)
          (⟨"", [], "", [], "", [], [], [], "", "", "", []⟩ : Query String)).2.error = none)) :=
  ⟨⟨by decide, rfl⟩,
    selectById_selectOne_not_found [((2 : Int), "a")] (1 : Int) (by decide)
      ((fun _ => (none, ⟨none, 0⟩)) : DBChain String → Option String × GormDB)
      (⟨"", [], "", [], "", [], [], [], "", "", "", []⟩ : Query String) rfl rfl⟩

/-- C7: on a successful count step, the page returned by `SelectPage`
carries as Total exactly the count reported by `SelectCount` on the
unpaginated condition, and Total does not depend on the data query: two
stores with identical count behavior yield identical Totals whatever
their data queries return. -/
theorem selectPage_total_from_count {α ε : Type} (s1 s2 : Store α ε)
    (page : Page ε) (q : Query α)
    (hc : s1.countRun = s2.countRun)
    (h : (SelectCount s1.countRun q).err = none) :
    (SelectPage s1 page q).page.Total = (SelectCount s1.countRun q).count
    ∧ (SelectPage s1 page q).page.Total = (SelectPage s2 page q).page.Total := by
  constructor
  · simp [SelectPage, h]
  · have h2 : (SelectCount s2.countRun q).err = none := by rw [← hc]; exact h
    simp [SelectPage, h, h2, ← hc]

/-- C7 witness: total 23 with page 3 and size 10 gives offset 20, limit
10, and Total 23 whether the data query returns three records or none. -/
theorem selectPage_total_from_count_witness :
    (c7Store1.countRun = c7Store2.countRun
      ∧ (SelectCount c7Store1.countRun c7Q).err = none)
    ∧ ((SelectPage c7Store1 c7Page c7Q).page.Total = (SelectCount c7Store1.countRun c7Q).count
      ∧ (SelectPage c7Store1 c7Page c7Q).page.Total = (SelectPage c7Store2 c7Page c7Q).page.Total)
    ∧ (SelectPage c7Store1 c7Page c7Q).page.Total = 23
    ∧ (SelectPage c7Store1 c7Page c7Q).offsetLimit = some (20, 10)
    ∧ (SelectPage c7Store1 c7Page c7Q).page.Records = [7, 8, 9]
    ∧ (SelectPage c7Store2 c7Page c7Q).page.Records = [] :=
  ⟨⟨rfl, rfl⟩,
    selectPage_total_from_count c7Store1 c7Store2 c7Page c7Q rfl rfl,
    by decide, by decide, by decide, by decide⟩

/-- C8: `InsertBatch`, `InsertBatchSize` with any chunk size, and
`DeleteByIds` with any primary-key column choice, are no-ops on empty
input: they return the untouched global handle (so no new error) and
perform zero store calls. -/
theorem empty_input_noops {ε κ : Type} (db : GormDB)
    (createInBatches : List ε → Int → GormDB)
    (deleteRun : String → List κ → GormDB)
    (primaryKeyColumn : List String) (batchSize : Int) :
    InsertBatch db createInBatches [] = (db, 0)
    ∧ InsertBatchSize db createInBatches [] batchSize = (db, 0)
    ∧ DeleteByIds db deleteRun primaryKeyColumn [] = (db, 0) :=
  ⟨rfl, rfl, rfl⟩

/-- C9: a descriptor with an empty top-level builder but a non-empty AND
or OR bracket finalizes to no WHERE clause at all: the bracket fragments
and their arguments are silently dropped and the descriptor is left
unchanged. -/
theorem buildCondition_discards_brackets {α : Type} (q : Query α)
    (h : q.QueryBuilder = "")
    (_hb : 0 < q.AndBracketBuilder.length ∨ 0 < q.OrBracketBuilder.length) :
    (buildCondition q).2.whereClause = none ∧ (buildCondition q).1 = q := by
  have hT : ¬ 0 < q.QueryBuilder.length := by simp [h]
  simp [buildCondition, hT]

/-- C9 witness: an empty top level next to a non-empty AND bracket. -/
theorem buildCondition_discards_brackets_witness :
    ((⟨"", [], " AND (x = ?)", ["1"], "", [], [], [], "", "", "", []⟩ : Query String).QueryBuilder = ""
      ∧ (0 < (⟨"", [], " AND (x = ?)", ["1"], "", [], [], [], "", "", "", []⟩ : Query String).AndBracketBuilder.length
          ∨ 0 < (⟨"", [], " AND (x = ?)", ["1"], "", [], [], [], "", "", "", []⟩ : Query String).OrBracketBuilder.length))
    ∧ ((buildCondition (⟨"", [], " AND (x = ?)", ["1"], "", [], [], [], "", "", "", []⟩ : Query String)).2.whereClause = none
      ∧ (buildCondition (⟨"", [], " AND (x = ?)", ["1"], "", [], [], [], "", "", "", []⟩ : Query String)).1
        = (⟨"", [], " AND (x = ?)", ["1"], "", [], [], [], "", "", "", []⟩ : Query String)) :=
  ⟨⟨rfl, Or.inl (by decide)⟩,
    buildCondition_discards_brackets
      (⟨"", [], " AND (x = ?)", ["1"], "", [], [], [], "", "", "", []⟩ : Query String)
      rfl (Or.inl (by decide))⟩

/-- C10: `paginate` reads the page but never writes it: the returned page
is the input page, with Current, Size, Total and Records unchanged. -/
theorem paginate_does_not_mutate_page {ε : Type} (p : Page ε) :
    (paginate p).1 = p
    ∧ (paginate p).1.Current = p.Current
    ∧ (paginate p).1.Size = p.Size
    ∧ (paginate p).1.Total = p.Total
    ∧ (paginate p).1.Records = p.Records :=
  ⟨rfl, rfl, rfl, rfl, rfl⟩

end GPlus
